import Mathlib

/-! Event manager: request handlers.

A shallow embedding of the HTTP handlers of `cmd/api` (`events.go`, `auth.go`,
`context.go`) and of the `Event` record of `internal/database/events.go`.

Conventions of the embedding.

* A Go pointer that the code compares with `nil` is an `Option`.
* A Go `error` is an `Option String` (`none` is `nil`).
* The repositories behind `app.models` (`Events`, `Users`, `Attendees`) are SQL
  wrappers whose bodies are not part of `cmd/api`; a handler receives them as
  a record `Models σ` of functions over an arbitrary store type `σ`.
* `strconv.Atoi`, the JSON decoder, `bcrypt` and the JWT signer are library
  code: a handler receives their outcome (or the function) as an argument.
* `c.ShouldBindJSON` on a `database.Event` decodes the body and then has the
  validator read the `binding` tags of the record; the tags are part of the
  source and are embedded as written. The tags of `loginRequest` and
  `registerRequest` name known validations only, and `login` and
  `registerUser` receive the outcome of `c.ShouldBindJSON` as an argument.
* A handler returns an `Outcome`: the store it leaves behind, the repository
  calls it made, in order, and the `c.JSON` writes it made, in order.
-/

namespace EventManager

/-! ## Data model -/

/-- A Go `error` value: `none` is `nil`, `some msg` an error with its text. -/
abbrev GoError := Option String

/-- Record `database.Event` (`internal/database/events.go`); `Date` is the
`time.Time` value as Unix seconds. -/
structure Event where
  Id : Int
  OwnerId : Int
  Name : String
  Description : String
  Date : Int
  Location : String
deriving DecidableEq, Repr

/-- Record `database.User`, with the fields the handlers read and write. -/
structure User where
  Id : Int
  Email : String
  Password : String
  Name : String
deriving DecidableEq, Repr

/-- Record `database.Attendee`, with the fields the handlers read and write. -/
structure Attendee where
  EventId : Int
  UserId : Int
deriving DecidableEq, Repr

/-- Go zero value `database.User{}`. -/
def User.zero : User := ⟨0, "", "", ""⟩

/-- Record `loginRequest` of `auth.go`. -/
structure loginRequest where
  Email : String
  Password : String
deriving DecidableEq, Repr

/-- Record `registerRequest` of `auth.go`. -/
structure registerRequest where
  Email : String
  Password : String
  Name : String
deriving DecidableEq, Repr

/-! ## Responses -/

/-- The second argument of `c.JSON`. -/
inductive Body where
  /-- Value `gin.H{"error": msg}`. -/
  | error (msg : String)
  | event (e : Event)
  | events (es : List Event)
  | user (u : User)
  | users (us : List User)
  | attendee (a : Attendee)
  /-- Value `loginResponse{Token: t}`. -/
  | token (t : String)
  /-- Value `nil`. -/
  | null
deriving DecidableEq, Repr

/-- One call `c.JSON(status, body)`. -/
structure Response where
  status : Nat
  body : Body
deriving DecidableEq, Repr

/-- A call on one of the repositories of `app.models`, with its arguments. -/
inductive Call where
  | eventsGet (id : Int)
  | eventsGetAll
  | eventsInsert (e : Event)
  | eventsUpdate (e : Event)
  | eventsDelete (id : Int)
  | usersGet (id : Int)
  | usersGetByEmail (email : String)
  | usersInsert (u : User)
  | attendeesGetByEventAndAttendee (eventId userId : Int)
  | attendeesInsert (a : Attendee)
  | attendeesDelete (userId eventId : Int)
  | attendeesGetAttendeesByEvent (eventId : Int)
  | attendeesGetEventsByAttendee (userId : Int)
  /-- Call `token.SignedString` on the claims `userId`, `expr`. -/
  | signedString (userId expr : Int)
deriving DecidableEq, Repr

/-- What running a handler on one request leaves behind. `panicked` records a
nil-pointer dereference, which ends the handler on the spot. -/
structure Outcome (σ : Type) where
  store : σ
  calls : List Call
  writes : List Response
  panicked : Bool

/-- Status line of the HTTP response. In gin the first `c.JSON` commits the
header; a later `c.JSON` cannot change the status and only appends its body. -/
def Outcome.status {σ : Type} (o : Outcome σ) : Option Nat :=
  o.writes.head?.map Response.status

/-- Whether the handler called `Events.Update`. -/
def Call.isEventsUpdate : Call → Bool
  | .eventsUpdate _ => true
  | _ => false

/-- Whether the handler called `Events.Insert`. -/
def Call.isEventsInsert : Call → Bool
  | .eventsInsert _ => true
  | _ => false

/-- Whether the handler called `Events.Delete`. -/
def Call.isEventsDelete : Call → Bool
  | .eventsDelete _ => true
  | _ => false

/-- Whether the handler called `Attendees.Insert`. -/
def Call.isAttendeesInsert : Call → Bool
  | .attendeesInsert _ => true
  | _ => false

/-- Whether the handler called `Attendees.Delete`. -/
def Call.isAttendeesDelete : Call → Bool
  | .attendeesDelete _ _ => true
  | _ => false

/-- Whether the handler called `Users.Insert`. -/
def Call.isUsersInsert : Call → Bool
  | .usersInsert _ => true
  | _ => false

/-- Whether the handler asked the JWT library to sign a token. -/
def Call.isSignedString : Call → Bool
  | .signedString _ _ => true
  | _ => false

/-- Whether a write carries a `loginResponse`, that is, a token. -/
def Response.carriesToken : Response → Bool
  | ⟨_, .token _⟩ => true
  | _ => false

/-- Whether a write is the `201` response carrying a user record. -/
def Response.isCreatedUser : Response → Bool
  | ⟨201, .user _⟩ => true
  | _ => false

/-! ## Repositories, request context, library functions -/

/-- The repositories of `app.models`, over a store `σ`. Queries read the store;
commands return the store they leave. A command that takes a pointer
(`Insert(&event)`, `Update(updatedEvent)`) also returns the pointee as the
command left it. -/
structure Models (σ : Type) where
  eventsGet : σ → Int → Option Event × GoError
  eventsGetAll : σ → List Event × GoError
  eventsInsert : σ → Event → σ × Event × GoError
  eventsUpdate : σ → Event → σ × Event × GoError
  eventsDelete : σ → Int → σ × GoError
  usersGet : σ → Int → Option User × GoError
  usersGetByEmail : σ → String → Option User × GoError
  usersInsert : σ → User → σ × User × GoError
  attendeesGetByEventAndAttendee : σ → Int → Int → Option Attendee × GoError
  attendeesInsert : σ → Attendee → σ × Attendee × GoError
  attendeesDelete : σ → Int → Int → σ × GoError
  attendeesGetAttendeesByEvent : σ → Int → List User × GoError
  attendeesGetEventsByAttendee : σ → Int → List Event × GoError

/-- A value stored in the key map of a `gin.Context`: a `*database.User`
(possibly a nil pointer) or a value of any other type. -/
inductive CtxValue where
  | userPtr (p : Option User)
  | other
deriving DecidableEq, Repr

/-- The key map of a `gin.Context`. -/
structure Context where
  Keys : List (String × CtxValue)

/-- Method `c.Get(key)`: the value and whether the key exists. -/
def Context.Get (c : Context) (key : String) : Option CtxValue :=
  c.Keys.lookup key

/-- Function `getUserFromContext` of `context.go`. The result is a pointer:
`none` is a nil `*database.User` that was stored under the key. -/
def getUserFromContext (c : Context) : Option User :=
  match c.Get "user" with
  | none => some User.zero
  | some (.userPtr p) => p
  | some .other => some User.zero

/-- The library functions `auth.go` calls. `GenerateFromPassword` and
`CompareHashAndPassword` are those of `bcrypt` (the hash comes first in the
latter), `SignedString` signs an HS256 token with `app.jwtSecret` from the
claims `userId` and `expr`, `now` is `time.Now().Unix()`. -/
structure Lib where
  GenerateFromPassword : String → String × GoError
  CompareHashAndPassword : String → String → GoError
  SignedString : Int → Int → String × GoError
  now : Int

/-! ## Binding a request body

`c.ShouldBindJSON(obj)` decodes the JSON body into `obj` and, when that works,
validates `obj` against the `binding` tags of its record. The validator reads
a tag by cutting it at every comma and taking what stands before `=` as the
name of a validation; a name it does not know makes it panic. -/

/-- The `binding` tags of a record: field name and tag text, in the order of
the fields; a field without a `binding` tag is left out. -/
abbrev BindingTags := List (String × String)

/-- The `binding` tags of `database.Event` (`internal/database/events.go`), as
written there: a blank follows each comma. Field `Id` has no tag. -/
def Event.bindingTags : BindingTags :=
  [("OwnerId", "required"),
   ("Name", "required, min=3, max=100"),
   ("Description", "required, min=10, max=150"),
   ("Date", "required, datetime=2006-01-02"),
   ("Location", "required, min=3")]

/-- The `binding` tags of `loginRequest` (`auth.go`), as written there. -/
def loginRequest.bindingTags : BindingTags :=
  [("Email", "required,email"), ("Password", "required,min=8")]

/-- The `binding` tags of `registerRequest` (`auth.go`), as written there. -/
def registerRequest.bindingTags : BindingTags :=
  [("Email", "required,email"), ("Password", "required,min=8"), ("Name", "required,min=2")]

/-- Go `strings.Split` on a one-character separator, over the characters. -/
def splitTag (sep : Char) : List Char → List (List Char)
  | [] => [[]]
  | ch :: rest =>
    if ch = sep then [] :: splitTag sep rest
    else
      match splitTag sep rest with
      | [] => [[ch]]
      | w :: ws => (ch :: w) :: ws

/-- The name of a validation in one piece of a tag: what stands before the
first `=`, blanks included. -/
def validationName (piece : List Char) : String :=
  String.mk (piece.takeWhile (fun ch => ch != '='))

/-- The validations of the validator that the tags of this repository name. No
validation of the validator has a blank in its name. -/
def knownValidations : List String :=
  ["required", "email", "min", "max", "datetime"]

/-- The first validation name, in field order, that the validator does not
know, with the field that carries it. -/
def undefinedValidation (tags : BindingTags) : Option (String × String) :=
  tags.findSome? (fun ft =>
    (((splitTag ',' ft.2.toList).map validationName).find?
      (fun name => !knownValidations.contains name)).map (fun name => (name, ft.1)))

/-- Outcome of `c.ShouldBindJSON(obj)`: an error, a panic of the validator, or
the bound value. -/
inductive Bound (α : Type) where
  | error (msg : String)
  | panic (msg : String)
  | ok (a : α)
deriving DecidableEq, Repr

/-- Method `c.ShouldBindJSON` on a record with the given `binding` tags.
`decoded` is the outcome of the JSON decoder; `validate` is the verdict of the
validations on a decoded value, asked only when every tag names validations
the validator knows. -/
def ShouldBindJSON {α : Type} (tags : BindingTags) (decoded : Except String α)
    (validate : α → GoError) : Bound α :=
  match decoded with
  | .error e => .error e
  | .ok a =>
    match undefinedValidation tags with
    | some (name, field) =>
      .panic ("Undefined validation function '" ++ name ++ "' on field '" ++ field ++ "'")
    | none =>
      match validate a with
      | some e => .error e
      | none => .ok a

/-! ## Event handlers (`events.go`) -/

/-- Handler `createEvent`. `decoded` and `validate` are the inputs of
`c.ShouldBindJSON(&event)`. -/
def createEvent {σ : Type} (m : Models σ) (s : σ) (c : Context)
    (decoded : Except String Event) (validate : Event → GoError) : Outcome σ :=
  match ShouldBindJSON Event.bindingTags decoded validate with
  | .error e => ⟨s, [], [⟨400, .error e⟩], false⟩
  | .panic _ => ⟨s, [], [], true⟩
  | .ok event =>
    match getUserFromContext c with
    | none => ⟨s, [], [], true⟩
    | some user =>
      let event := { event with OwnerId := user.Id }
      match m.eventsInsert s event with
      | (s', _, some _) =>
        ⟨s', [.eventsInsert event], [⟨500, .error "Failed to create event"⟩], false⟩
      | (s', event', none) =>
        ⟨s', [.eventsInsert event], [⟨201, .event event'⟩], false⟩

/-- Handler `getEvent`. `idParam` is the outcome of `strconv.Atoi(c.Param("id"))`,
`none` when it fails. -/
def getEvent {σ : Type} (m : Models σ) (s : σ) (idParam : Option Int) : Outcome σ :=
  match idParam with
  | none => ⟨s, [], [⟨400, .error "Invalid event ID"⟩], false⟩
  | some id =>
    match m.eventsGet s id with
    | (none, _) => ⟨s, [.eventsGet id], [⟨404, .error "event not Found"⟩], false⟩
    | (some _, some _) =>
      ⟨s, [.eventsGet id], [⟨500, .error "Failed to retrieve event"⟩], false⟩
    | (some event, none) => ⟨s, [.eventsGet id], [⟨200, .event event⟩], false⟩

/-- Handler `updateEvent`. `idParam` is the outcome of `strconv.Atoi`;
`decoded` and `validate` are the inputs of `c.ShouldBindJSON(updatedEvent)`. -/
def updateEvent {σ : Type} (m : Models σ) (s : σ) (idParam : Option Int) (c : Context)
    (decoded : Except String Event) (validate : Event → GoError) : Outcome σ :=
  match idParam with
  | none => ⟨s, [], [⟨400, .error "Invalid event ID"⟩], false⟩
  | some id =>
    let user := getUserFromContext c
    match m.eventsGet s id with
    | (_, some _) =>
      ⟨s, [.eventsGet id], [⟨500, .error "Failed to retrieve event"⟩], false⟩
    | (none, none) => ⟨s, [.eventsGet id], [⟨404, .error "Event not found"⟩], false⟩
    | (some existingEvent, none) =>
      match user with
      | none => ⟨s, [.eventsGet id], [], true⟩
      | some user =>
        let forbidden : List Response :=
          if existingEvent.OwnerId ≠ user.Id then
            [⟨403, .error "You are not authorized to update this event"⟩]
          else []
        match ShouldBindJSON Event.bindingTags decoded validate with
        | .error e => ⟨s, [.eventsGet id], forbidden ++ [⟨400, .error e⟩], false⟩
        | .panic _ => ⟨s, [.eventsGet id], forbidden, true⟩
        | .ok body =>
          let updatedEvent := { body with Id := id }
          match m.eventsUpdate s updatedEvent with
          | (s', _, some _) =>
            ⟨s', [.eventsGet id, .eventsUpdate updatedEvent],
              forbidden ++ [⟨500, .error "Failed to update event"⟩], false⟩
          | (s', updatedEvent', none) =>
            ⟨s', [.eventsGet id, .eventsUpdate updatedEvent],
              forbidden ++ [⟨200, .event updatedEvent'⟩], false⟩

/-- Handler `deleteEvent`. `idParam` is the outcome of `strconv.Atoi`. -/
def deleteEvent {σ : Type} (m : Models σ) (s : σ) (idParam : Option Int) (c : Context) :
    Outcome σ :=
  match idParam with
  | none => ⟨s, [], [⟨400, .error "Invalid event ID"⟩], false⟩
  | some id =>
    let user := getUserFromContext c
    match m.eventsGet s id with
    | (_, some _) =>
      ⟨s, [.eventsGet id], [⟨500, .error "Failed to retrieve event"⟩], false⟩
    | (none, none) => ⟨s, [.eventsGet id], [⟨404, .error "Status not found"⟩], false⟩
    | (some existingEvent, none) =>
      match user with
      | none => ⟨s, [.eventsGet id], [], true⟩
      | some user =>
        let forbidden : List Response :=
          if existingEvent.OwnerId ≠ user.Id then
            [⟨403, .error "You are not authorized to update this event"⟩]
          else []
        match m.eventsDelete s id with
        | (s', some _) =>
          ⟨s', [.eventsGet id, .eventsDelete id],
            forbidden ++ [⟨500, .error "Failed to delete event"⟩], false⟩
        | (s', none) =>
          ⟨s', [.eventsGet id, .eventsDelete id], forbidden ++ [⟨204, .null⟩], false⟩

/-- Handler `getAllEvents`. -/
def getAllEvents {σ : Type} (m : Models σ) (s : σ) : Outcome σ :=
  match m.eventsGetAll s with
  | (_, some _) => ⟨s, [.eventsGetAll], [⟨500, .error "Failed to retrieve events"⟩], false⟩
  | (events, none) => ⟨s, [.eventsGetAll], [⟨200, .events events⟩], false⟩

/-- Handler `addAttendeeToEvent`. `idParam` and `userIdParam` are the outcomes
of `strconv.Atoi` on the path parameters `id` and `userId`. -/
def addAttendeeToEvent {σ : Type} (m : Models σ) (s : σ) (idParam userIdParam : Option Int)
    (c : Context) : Outcome σ :=
  match idParam with
  | none => ⟨s, [], [⟨400, .error "Invalid event ID"⟩], false⟩
  | some eventId =>
    match userIdParam with
    | none => ⟨s, [], [⟨400, .error "Invalid user ID"⟩], false⟩
    | some userId =>
      match m.eventsGet s eventId with
      | (_, some _) =>
        ⟨s, [.eventsGet eventId], [⟨500, .error "Failed to retrieve event"⟩], false⟩
      | (none, none) =>
        ⟨s, [.eventsGet eventId], [⟨404, .error "Event not found"⟩], false⟩
      | (some event, none) =>
        match m.usersGet s userId with
        | (_, some _) =>
          ⟨s, [.eventsGet eventId, .usersGet userId],
            [⟨500, .error "Failed to retrieve user"⟩], false⟩
        | (none, none) =>
          ⟨s, [.eventsGet eventId, .usersGet userId], [⟨404, .error "User not found"⟩], false⟩
        | (some userToAdd, none) =>
          match getUserFromContext c with
          | none => ⟨s, [.eventsGet eventId, .usersGet userId], [], true⟩
          | some user =>
            if event.OwnerId ≠ user.Id then
              ⟨s, [.eventsGet eventId, .usersGet userId],
                [⟨403, .error "You are not authorized to add an attendee"⟩], false⟩
            else
              let reads : List Call := [.eventsGet eventId, .usersGet userId,
                .attendeesGetByEventAndAttendee event.Id userToAdd.Id]
              match m.attendeesGetByEventAndAttendee s event.Id userToAdd.Id with
              | (_, some _) => ⟨s, reads, [⟨500, .error "Failed to retrieve attendee"⟩], false⟩
              | (some _, none) => ⟨s, reads, [⟨409, .error "Attendee already exists"⟩], false⟩
              | (none, none) =>
                let attendee : Attendee := { EventId := event.Id, UserId := userToAdd.Id }
                match m.attendeesInsert s attendee with
                | (s', _, some _) =>
                  ⟨s', reads ++ [.attendeesInsert attendee],
                    [⟨500, .error "Failed to add ateendee"⟩], false⟩
                | (s', attendee', none) =>
                  ⟨s', reads ++ [.attendeesInsert attendee], [⟨201, .attendee attendee'⟩], false⟩

/-- Handler `getAllAttendeesForEvent`. -/
def getAllAttendeesForEvent {σ : Type} (m : Models σ) (s : σ) (idParam : Option Int) :
    Outcome σ :=
  match idParam with
  | none => ⟨s, [], [⟨400, .error "Invalid event ID"⟩], false⟩
  | some id =>
    match m.attendeesGetAttendeesByEvent s id with
    | (_, some _) =>
      ⟨s, [.attendeesGetAttendeesByEvent id],
        [⟨500, .error "Failed to retrieve attendees for event"⟩], false⟩
    | (users, none) => ⟨s, [.attendeesGetAttendeesByEvent id], [⟨200, .users users⟩], false⟩

/-- Handler `deleteAttendeeFromEvent`. `idParam` and `userIdParam` are the
outcomes of `strconv.Atoi` on the path parameters `id` and `userId`. -/
def deleteAttendeeFromEvent {σ : Type} (m : Models σ) (s : σ)
    (idParam userIdParam : Option Int) (c : Context) : Outcome σ :=
  match idParam with
  | none => ⟨s, [], [⟨400, .error "Invalid event ID"⟩], false⟩
  | some id =>
    match userIdParam with
    | none => ⟨s, [], [⟨400, .error "Invalid user ID"⟩], false⟩
    | some userID =>
      match m.eventsGet s id with
      | (_, some _) => ⟨s, [.eventsGet id], [⟨500, .error "Something went wrong"⟩], false⟩
      | (none, none) => ⟨s, [.eventsGet id], [⟨404, .error "Event not found"⟩], false⟩
      | (some event, none) =>
        match getUserFromContext c with
        | none => ⟨s, [.eventsGet id], [], true⟩
        | some user =>
          let forbidden : List Response :=
            if event.OwnerId ≠ user.Id then
              [⟨403, .error "You are not authorized to delete an attendee from event"⟩]
            else []
          match m.attendeesDelete s userID id with
          | (s', some _) =>
            ⟨s', [.eventsGet id, .attendeesDelete userID id],
              forbidden ++ [⟨500, .error "Failed to delete attendee"⟩], false⟩
          | (s', none) =>
            ⟨s', [.eventsGet id, .attendeesDelete userID id],
              forbidden ++ [⟨204, .null⟩], false⟩

/-- Handler `getEventsByAttendee`. -/
def getEventsByAttendee {σ : Type} (m : Models σ) (s : σ) (idParam : Option Int) :
    Outcome σ :=
  match idParam with
  | none => ⟨s, [], [⟨400, .error "Invalid attendee ID"⟩], false⟩
  | some id =>
    match m.attendeesGetEventsByAttendee s id with
    | (_, some _) =>
      ⟨s, [.attendeesGetEventsByAttendee id], [⟨500, .error "Failed to get events"⟩], false⟩
    | (events, none) =>
      ⟨s, [.attendeesGetEventsByAttendee id], [⟨200, .events events⟩], false⟩

/-! ## Authentication handlers (`auth.go`) -/

/-- Handler `login`. `bind` is the outcome of `c.ShouldBindJSON(&auth)`; `auth`
is a pointer, `none` when the binding left it nil. -/
def login {σ : Type} (m : Models σ) (lib : Lib) (s : σ)
    (bind : Except String (Option loginRequest)) : Outcome σ :=
  match bind with
  | .error e => ⟨s, [], [⟨400, .error e⟩], false⟩
  | .ok none => ⟨s, [], [], true⟩
  | .ok (some auth) =>
    match m.usersGetByEmail s auth.Email with
    | (_, some _) =>
      ⟨s, [.usersGetByEmail auth.Email], [⟨500, .error "Something went wrong"⟩], false⟩
    | (none, none) =>
      ⟨s, [.usersGetByEmail auth.Email], [⟨401, .error "Invalid email or password"⟩], false⟩
    | (some existingUser, none) =>
      match lib.CompareHashAndPassword existingUser.Password auth.Password with
      | some _ =>
        ⟨s, [.usersGetByEmail auth.Email], [⟨401, .error "Invalid email or password"⟩], false⟩
      | none =>
        let expr := lib.now + 72 * 3600
        match lib.SignedString existingUser.Id expr with
        | (_, some _) =>
          ⟨s, [.usersGetByEmail auth.Email, .signedString existingUser.Id expr],
            [⟨500, .error "Error generating token"⟩], false⟩
        | (tokenString, none) =>
          ⟨s, [.usersGetByEmail auth.Email, .signedString existingUser.Id expr],
            [⟨200, .token tokenString⟩], false⟩

/-- Handler `registerUser`. `bind` is the outcome of `c.ShouldBindJSON(&register)`. -/
def registerUser {σ : Type} (m : Models σ) (lib : Lib) (s : σ)
    (bind : Except String registerRequest) : Outcome σ :=
  match bind with
  | .error e => ⟨s, [], [⟨400, .error e⟩], false⟩
  | .ok register =>
    let hashed := lib.GenerateFromPassword register.Password
    let hashFailed : List Response :=
      match hashed.2 with
      | some _ => [⟨500, .error "Something went wrong"⟩]
      | none => []
    let register := { register with Password := hashed.1 }
    let user : User :=
      { Id := 0, Email := register.Email, Password := register.Password, Name := register.Name }
    match m.usersInsert s user with
    | (s', user', some _) =>
      ⟨s', [.usersInsert user],
        hashFailed ++ [⟨500, .error "Could not create user"⟩] ++ [⟨201, .user user'⟩], false⟩
    | (s', user', none) =>
      ⟨s', [.usersInsert user], hashFailed ++ [⟨201, .user user'⟩], false⟩

/-! ## An in-memory store

The repositories are SQL wrappers over three tables. The store below keeps the
three tables as lists; it is the instance on which the handlers are run on
concrete requests. -/

/-- Modelled from the spec: the tables behind the user, event and attendee
repositories (`internal/database`, of which only the `Event` record is given). -/
structure MemStore where
  users : List User
  events : List Event
  attendees : List Attendee
deriving DecidableEq, Repr

/-- Modelled from the spec: the id the store assigns to a new record, one more
than the largest id in use ("id (unique, assigned by store)"). -/
def MemStore.freshId (ids : List Int) : Int :=
  ids.foldl max 0 + 1

/-- Modelled from the spec: the user, event and attendee repositories of
`internal/database` over `MemStore`. A lookup by id or by email returns the
record or `nil` without an error; `Events.Insert` and `Users.Insert` assign the
id; `Users.Insert` refuses an email that is already stored; `Events.Update`
persists the full replacement of the record with the same id; an attendee is a
pair (eventId, userId). -/
def memModels : Models MemStore where
  eventsGet s id := (s.events.find? (fun e => e.Id == id), none)
  eventsGetAll s := (s.events, none)
  eventsInsert s e :=
    let e' := { e with Id := MemStore.freshId (s.events.map Event.Id) }
    ({ s with events := s.events ++ [e'] }, e', none)
  eventsUpdate s e :=
    ({ s with events := s.events.map (fun x => if x.Id == e.Id then e else x) }, e, none)
  eventsDelete s id := ({ s with events := s.events.filter (fun e => e.Id != id) }, none)
  usersGet s id := (s.users.find? (fun u => u.Id == id), none)
  usersGetByEmail s email := (s.users.find? (fun u => u.Email == email), none)
  usersInsert s u :=
    if s.users.any (fun x => x.Email == u.Email) then
      (s, u, some "UNIQUE constraint failed: users.email")
    else
      let u' := { u with Id := MemStore.freshId (s.users.map User.Id) }
      ({ s with users := s.users ++ [u'] }, u', none)
  attendeesGetByEventAndAttendee s eventId userId :=
    (s.attendees.find? (fun a => a.EventId == eventId && a.UserId == userId), none)
  attendeesInsert s a := ({ s with attendees := s.attendees ++ [a] }, a, none)
  attendeesDelete s userId eventId :=
    ({ s with attendees :=
        s.attendees.filter (fun a => !(a.UserId == userId && a.EventId == eventId)) }, none)
  attendeesGetAttendeesByEvent s eventId :=
    (s.users.filter (fun u =>
      s.attendees.any (fun a => a.EventId == eventId && a.UserId == u.Id)), none)
  attendeesGetEventsByAttendee s userId :=
    (s.events.filter (fun e =>
      s.attendees.any (fun a => a.UserId == userId && a.EventId == e.Id)), none)

/-- Modelled from the spec: repositories whose storage is unreachable, so that
every call reports a storage failure ("InternalError on storage failure"); a
failed lookup returns `nil` with the error. -/
def downModels : Models Unit where
  eventsGet _ _ := (none, some "sql: database is closed")
  eventsGetAll _ := ([], some "sql: database is closed")
  eventsInsert s e := (s, e, some "sql: database is closed")
  eventsUpdate s e := (s, e, some "sql: database is closed")
  eventsDelete s _ := (s, some "sql: database is closed")
  usersGet _ _ := (none, some "sql: database is closed")
  usersGetByEmail _ _ := (none, some "sql: database is closed")
  usersInsert s u := (s, u, some "sql: database is closed")
  attendeesGetByEventAndAttendee _ _ _ := (none, some "sql: database is closed")
  attendeesInsert s a := (s, a, some "sql: database is closed")
  attendeesDelete s _ _ := (s, some "sql: database is closed")
  attendeesGetAttendeesByEvent _ _ := ([], some "sql: database is closed")
  attendeesGetEventsByAttendee _ _ := ([], some "sql: database is closed")

/-! ## Sample data -/

/-- User A, the owner of the sample event. -/
def userA : User := ⟨1, "a@example.com", "hash-a", "Ann"⟩

/-- User B, another registered user. -/
def userB : User := ⟨2, "b@example.com", "hash-b", "Bob"⟩

/-- An event created by user A. -/
def eventE : Event := ⟨1, 1, "Launch", "Product launch party", 1767225600, "Lisbon"⟩

/-- A store with users A and B, the event of A, and B attending it. -/
def sampleStore : MemStore := ⟨[userA, userB], [eventE], [⟨1, 2⟩]⟩

/-- A store with users A and B and the event of A, nobody attending. -/
def emptyAttendance : MemStore := ⟨[userA, userB], [eventE], []⟩

/-- The request context the auth middleware leaves for a token of `u`. -/
def ctxOf (u : User) : Context := ⟨[("user", .userPtr (some u))]⟩

/-- A replacement body a client may send: it names user B as the owner. -/
def replacementBody : Event := ⟨77, 2, "Taken", "Replaced by someone", 1767312000, "Porto"⟩

/-- Stand-ins for the library functions of `auth.go`: hashing fails on a
password longer than 72 bytes, as `bcrypt` does, and returns no hash then. -/
def sampleLib : Lib where
  GenerateFromPassword pw :=
    if pw.utf8ByteSize > 72 then ("", some "bcrypt: password length exceeds 72 bytes")
    else ("hash-" ++ pw, none)
  CompareHashAndPassword hash pw :=
    if hash == "hash-" ++ pw then none
    else some "crypto/bcrypt: hashedPassword is not the hash of the given password"
  SignedString userId expr := ("jwt." ++ toString userId ++ "." ++ toString expr, none)
  now := 1767225600

/-- A password of 73 bytes: long enough for the `min=8` rule of
`registerRequest`, too long for `bcrypt`. -/
def longPassword : String :=
  "0123456789012345678901234567890123456789012345678901234567890123456789012"

/-- The validations pass on every decoded event. -/
def acceptAll : Event → GoError := fun _ => none

/-- User B, not the owner, sends a valid replacement for the event of user A. -/
def foreignUpdate : Outcome MemStore :=
  updateEvent memModels sampleStore (some 1) (ctxOf userB) (.ok replacementBody) acceptAll

/-- User B, not the owner, sends a body that is not JSON for the event of user A. -/
def foreignGarbage : Outcome MemStore :=
  updateEvent memModels sampleStore (some 1) (ctxOf userB)
    (.error "invalid character 'x' looking for beginning of value") acceptAll

/-- User B creates an event with a valid body. -/
def validCreate : Outcome MemStore :=
  createEvent memModels sampleStore (ctxOf userB) (.ok replacementBody) acceptAll

/-- User B, not the owner, deletes the event of user A. -/
def foreignDelete : Outcome MemStore :=
  deleteEvent memModels sampleStore (some 1) (ctxOf userB)

/-- User A, the owner, updates the event with a body that names user B as owner. -/
def ownerUpdate : Outcome MemStore :=
  updateEvent memModels sampleStore (some 1) (ctxOf userA) (.ok replacementBody) acceptAll

/-- User B, not the owner, removes attendee B from the event of user A. -/
def foreignRemoval : Outcome MemStore :=
  deleteAttendeeFromEvent memModels sampleStore (some 1) (some 2) (ctxOf userB)

/-- A registration whose password `bcrypt` refuses to hash. -/
def registerUnhashable : Outcome MemStore :=
  registerUser memModels sampleLib sampleStore
    (.ok ⟨"c@example.com", longPassword, "Cyd"⟩)

/-- A registration with the email of user A, which `Users.Insert` refuses. -/
def registerDuplicate : Outcome MemStore :=
  registerUser memModels sampleLib sampleStore
    (.ok ⟨"a@example.com", "secret-password", "Ann again"⟩)

/-- A lookup of event 1 while the storage is unreachable. -/
def getWhileDown : Outcome Unit :=
  getEvent downModels () (some 1)

/-- The attendee repository shows its own inserts: after a successful
`Attendees.Insert` of a pair, `GetByEventAndAttendee` finds the pair, and
events and users read as before. -/
def InsertIsVisible {σ : Type} (m : Models σ) : Prop :=
  ∀ (s : σ) (a : Attendee), (m.attendeesInsert s a).2.2 = none →
    (∃ found, m.attendeesGetByEventAndAttendee (m.attendeesInsert s a).1 a.EventId a.UserId
      = (some found, none)) ∧
    (∀ id, m.eventsGet (m.attendeesInsert s a).1 id = m.eventsGet s id) ∧
    (∀ id, m.usersGet (m.attendeesInsert s a).1 id = m.usersGet s id)

/-! ## Properties of the handlers -/

/-- What `addAttendeeToEvent` does when the owner adds a pair that is already
there: one 409 write, three reads, the store as it was. -/
theorem addAttendeeToEvent_of_present {σ : Type} (m : Models σ) (s : σ) (eventId userId : Int)
    (c : Context) (event : Event) (userToAdd user : User) (existing : Attendee)
    (hev : m.eventsGet s eventId = (some event, none))
    (hus : m.usersGet s userId = (some userToAdd, none))
    (hctx : getUserFromContext c = some user)
    (hown : event.OwnerId = user.Id)
    (hfound : m.attendeesGetByEventAndAttendee s event.Id userToAdd.Id = (some existing, none)) :
    addAttendeeToEvent m s (some eventId) (some userId) c
      = ⟨s, [.eventsGet eventId, .usersGet userId,
              .attendeesGetByEventAndAttendee event.Id userToAdd.Id],
          [⟨409, .error "Attendee already exists"⟩], false⟩ := by
  simp only [addAttendeeToEvent, hev, hus, hctx]
  rw [if_neg (not_not.mpr hown)]
  simp only [hfound]

/-- The in-memory attendee repository shows its own inserts. -/
theorem memModels_insertIsVisible : InsertIsVisible memModels := by
  intro s a _
  refine ⟨⟨a, ?_⟩, fun _ => rfl, fun _ => rfl⟩
  simp only [memModels, List.find?_append, Prod.mk.injEq, and_true]
  cases h : s.attendees.find? (fun x => x.EventId == a.EventId && x.UserId == a.UserId) with
  | none => simp
  | some b =>
    have hb := List.find?_some h
    simp only [Bool.and_eq_true, beq_iff_eq] at hb
    have : b = a := by
      cases b; cases a; simp_all
    simp [this]

/-- C9: `deleteEvent` on a numeric id for which `Events.Get` returns no event and
no error answers 404, never 500, and does not call `Events.Delete`, whatever
the request context holds. -/
theorem deleteEvent_absent_is_404 {σ : Type} (m : Models σ) (s : σ) (id : Int) (c : Context)
    (hget : m.eventsGet s id = (none, none)) :
    (deleteEvent m s (some id) c).status = some 404 ∧
    (deleteEvent m s (some id) c).writes = [⟨404, .error "Status not found"⟩] ∧
    (∀ r ∈ (deleteEvent m s (some id) c).writes, r.status ≠ 500) ∧
    (deleteEvent m s (some id) c).calls = [.eventsGet id] ∧
    (deleteEvent m s (some id) c).calls.any Call.isEventsDelete = false ∧
    (deleteEvent m s (some id) c).store = s ∧
    (deleteEvent m s (some id) c).panicked = false := by
  have h : deleteEvent m s (some id) c
      = ⟨s, [.eventsGet id], [⟨404, .error "Status not found"⟩], false⟩ := by
    simp only [deleteEvent, hget]
  rw [h]
  refine ⟨rfl, rfl, ?_, rfl, rfl, rfl, rfl⟩
  intro r hr
  simp only [List.mem_singleton] at hr
  subst hr
  decide

/-- Witness of C9: event 9 is not in the sample store; user B, or a request with
no user at all, gets 404 and the store keeps its event. -/
theorem deleteEvent_absent_is_404_witness :
    memModels.eventsGet sampleStore 9 = (none, none) ∧
    (deleteEvent memModels sampleStore (some 9) (ctxOf userB)).status = some 404 ∧
    (deleteEvent memModels sampleStore (some 9) ⟨[]⟩).calls = [.eventsGet 9] ∧
    (deleteEvent memModels sampleStore (some 9) ⟨[("user", .userPtr none)]⟩).store
      = sampleStore :=
  ⟨by decide,
   (deleteEvent_absent_is_404 memModels sampleStore 9 (ctxOf userB) (by decide)).1,
   (deleteEvent_absent_is_404 memModels sampleStore 9 ⟨[]⟩ (by decide)).2.2.2.1,
   (deleteEvent_absent_is_404 memModels sampleStore 9 ⟨[("user", .userPtr none)]⟩
      (by decide)).2.2.2.2.2.1⟩

/-- C7: for every well-formed login body, the run in which `GetByEmail` finds no
user and the run in which a user is found but the password does not verify
write the same response, one 401 with the error "Invalid email or password";
neither run signs or returns a token. -/
theorem login_unknown_email_same_as_wrong_password {σ₁ σ₂ : Type}
    (m₁ : Models σ₁) (m₂ : Models σ₂) (lib₁ lib₂ : Lib) (s₁ : σ₁) (s₂ : σ₂)
    (auth₁ auth₂ : loginRequest) (existingUser : User) (err : String)
    (hmiss : m₁.usersGetByEmail s₁ auth₁.Email = (none, none))
    (hhit : m₂.usersGetByEmail s₂ auth₂.Email = (some existingUser, none))
    (hbad : lib₂.CompareHashAndPassword existingUser.Password auth₂.Password = some err) :
    (login m₁ lib₁ s₁ (.ok (some auth₁))).writes = (login m₂ lib₂ s₂ (.ok (some auth₂))).writes ∧
    (login m₁ lib₁ s₁ (.ok (some auth₁))).writes
      = [⟨401, .error "Invalid email or password"⟩] ∧
    (login m₁ lib₁ s₁ (.ok (some auth₁))).status = some 401 ∧
    (login m₂ lib₂ s₂ (.ok (some auth₂))).status = some 401 ∧
    (login m₁ lib₁ s₁ (.ok (some auth₁))).writes.any Response.carriesToken = false ∧
    (login m₂ lib₂ s₂ (.ok (some auth₂))).writes.any Response.carriesToken = false ∧
    (login m₁ lib₁ s₁ (.ok (some auth₁))).calls.any Call.isSignedString = false ∧
    (login m₂ lib₂ s₂ (.ok (some auth₂))).calls.any Call.isSignedString = false := by
  have h₁ : login m₁ lib₁ s₁ (.ok (some auth₁))
      = ⟨s₁, [.usersGetByEmail auth₁.Email],
          [⟨401, .error "Invalid email or password"⟩], false⟩ := by
    simp only [login, hmiss]
  have h₂ : login m₂ lib₂ s₂ (.ok (some auth₂))
      = ⟨s₂, [.usersGetByEmail auth₂.Email],
          [⟨401, .error "Invalid email or password"⟩], false⟩ := by
    simp only [login, hhit, hbad]
  rw [h₁, h₂]
  exact ⟨rfl, rfl, rfl, rfl, rfl, rfl, rfl, rfl⟩

/-- Witness of C7: an address nobody registered, and the address of user A with
a wrong password, against the sample store. -/
theorem login_unknown_email_same_as_wrong_password_witness :
    (login memModels sampleLib sampleStore
        (.ok (some ⟨"nobody@example.com", "password-1"⟩))).writes
      = (login memModels sampleLib sampleStore
        (.ok (some ⟨"a@example.com", "password-2"⟩))).writes ∧
    (login memModels sampleLib sampleStore
        (.ok (some ⟨"a@example.com", "password-2"⟩))).status = some 401 :=
  ⟨(login_unknown_email_same_as_wrong_password memModels memModels sampleLib sampleLib
      sampleStore sampleStore ⟨"nobody@example.com", "password-1"⟩
      ⟨"a@example.com", "password-2"⟩ userA
      "crypto/bcrypt: hashedPassword is not the hash of the given password"
      (by decide) (by decide) (by decide)).1,
   (login_unknown_email_same_as_wrong_password memModels memModels sampleLib sampleLib
      sampleStore sampleStore ⟨"nobody@example.com", "password-1"⟩
      ⟨"a@example.com", "password-2"⟩ userA
      "crypto/bcrypt: hashedPassword is not the hash of the given password"
      (by decide) (by decide) (by decide)).2.2.2.1⟩

/-- C5: when the event and the user exist and the caller owns the event,
`addAttendeeToEvent` answers a pair that `GetByEventAndAttendee` already finds
with 409, without calling `Attendees.Insert` and without touching the store, so
the attendee list of the event is the same; hence, on a repository that shows
its own inserts, an add answered with 201 is answered with 409 when repeated,
and the repeat changes nothing. -/
theorem addAttendeeToEvent_duplicate_is_409 {σ : Type} (m : Models σ) (s : σ)
    (eventId userId : Int) (c : Context) (event : Event) (userToAdd user : User)
    (hev : m.eventsGet s eventId = (some event, none))
    (hus : m.usersGet s userId = (some userToAdd, none))
    (hctx : getUserFromContext c = some user)
    (hown : event.OwnerId = user.Id) :
    (∀ existing : Attendee,
      m.attendeesGetByEventAndAttendee s event.Id userToAdd.Id = (some existing, none) →
      (addAttendeeToEvent m s (some eventId) (some userId) c).status = some 409 ∧
      (addAttendeeToEvent m s (some eventId) (some userId) c).writes
        = [⟨409, .error "Attendee already exists"⟩] ∧
      (addAttendeeToEvent m s (some eventId) (some userId) c).calls.any Call.isAttendeesInsert
        = false ∧
      (addAttendeeToEvent m s (some eventId) (some userId) c).store = s ∧
      m.attendeesGetAttendeesByEvent
          (addAttendeeToEvent m s (some eventId) (some userId) c).store eventId
        = m.attendeesGetAttendeesByEvent s eventId) ∧
    (InsertIsVisible m →
      (addAttendeeToEvent m s (some eventId) (some userId) c).status = some 201 →
      (addAttendeeToEvent m (addAttendeeToEvent m s (some eventId) (some userId) c).store
          (some eventId) (some userId) c).status = some 409 ∧
      (addAttendeeToEvent m (addAttendeeToEvent m s (some eventId) (some userId) c).store
          (some eventId) (some userId) c).calls.any Call.isAttendeesInsert = false ∧
      (addAttendeeToEvent m (addAttendeeToEvent m s (some eventId) (some userId) c).store
          (some eventId) (some userId) c).store
        = (addAttendeeToEvent m s (some eventId) (some userId) c).store ∧
      m.attendeesGetAttendeesByEvent
          (addAttendeeToEvent m (addAttendeeToEvent m s (some eventId) (some userId) c).store
            (some eventId) (some userId) c).store eventId
        = m.attendeesGetAttendeesByEvent
            (addAttendeeToEvent m s (some eventId) (some userId) c).store eventId) := by
  constructor
  · intro existing hfound
    rw [addAttendeeToEvent_of_present m s eventId userId c event userToAdd user existing
      hev hus hctx hown hfound]
    exact ⟨rfl, rfl, rfl, rfl, rfl⟩
  · intro hvis hfirst
    have hstore : (addAttendeeToEvent m s (some eventId) (some userId) c).store
          = (m.attendeesInsert s ⟨event.Id, userToAdd.Id⟩).1 ∧
        (m.attendeesInsert s ⟨event.Id, userToAdd.Id⟩).2.2 = none := by
      simp only [addAttendeeToEvent, hev, hus, hctx] at hfirst ⊢
      rw [if_neg (not_not.mpr hown)] at hfirst ⊢
      revert hfirst
      split
      · intro hfirst; simp [Outcome.status] at hfirst
      · intro hfirst; simp [Outcome.status] at hfirst
      · split
        · intro hfirst; simp [Outcome.status] at hfirst
        · next heq => intro _; simp [heq]
    obtain ⟨⟨found, hfound⟩, hevs, huss⟩ := hvis s ⟨event.Id, userToAdd.Id⟩ hstore.2
    rw [hstore.1]
    rw [addAttendeeToEvent_of_present m _ eventId userId c event userToAdd user found
      ((hevs eventId).trans hev) ((huss userId).trans hus) hctx hown hfound]
    exact ⟨rfl, rfl, rfl, rfl⟩

/-- Witness of C5: user A adds user B to the own event twice, starting with
nobody attending: 201, then 409 with the one attendee still listed once; and on
the store where B already attends, the add is answered with 409. -/
theorem addAttendeeToEvent_duplicate_is_409_witness :
    (addAttendeeToEvent memModels emptyAttendance (some 1) (some 2) (ctxOf userA)).status
      = some 201 ∧
    (addAttendeeToEvent memModels
        (addAttendeeToEvent memModels emptyAttendance (some 1) (some 2) (ctxOf userA)).store
        (some 1) (some 2) (ctxOf userA)).status = some 409 ∧
    (addAttendeeToEvent memModels
        (addAttendeeToEvent memModels emptyAttendance (some 1) (some 2) (ctxOf userA)).store
        (some 1) (some 2) (ctxOf userA)).store
      = (addAttendeeToEvent memModels emptyAttendance (some 1) (some 2) (ctxOf userA)).store ∧
    (addAttendeeToEvent memModels sampleStore (some 1) (some 2) (ctxOf userA)).writes
      = [⟨409, .error "Attendee already exists"⟩] ∧
    (addAttendeeToEvent memModels sampleStore (some 1) (some 2) (ctxOf userA)).store
      = sampleStore :=
  ⟨by decide,
   ((addAttendeeToEvent_duplicate_is_409 memModels emptyAttendance 1 2 (ctxOf userA)
      eventE userB userA (by decide) (by decide) (by decide) (by decide)).2
      memModels_insertIsVisible (by decide)).1,
   ((addAttendeeToEvent_duplicate_is_409 memModels emptyAttendance 1 2 (ctxOf userA)
      eventE userB userA (by decide) (by decide) (by decide) (by decide)).2
      memModels_insertIsVisible (by decide)).2.2.1,
   ((addAttendeeToEvent_duplicate_is_409 memModels sampleStore 1 2 (ctxOf userA)
      eventE userB userA (by decide) (by decide) (by decide) (by decide)).1
      ⟨1, 2⟩ (by decide)).2.1,
   ((addAttendeeToEvent_duplicate_is_409 memModels sampleStore 1 2 (ctxOf userA)
      eventE userB userA (by decide) (by decide) (by decide) (by decide)).1
      ⟨1, 2⟩ (by decide)).2.2.2.1⟩

/-- C2, on the code: user B, who does not own the event of user A, deletes it.
`deleteEvent` writes 403 first, so the status is 403, but it does not return:
it calls `Events.Delete` and the event is gone. -/
theorem deleteEvent_foreign_caller_deletes :
    (memModels.eventsGet sampleStore 1).1 = some eventE ∧
    eventE.OwnerId ≠ userB.Id ∧
    foreignDelete.status = some 403 ∧
    foreignDelete.writes
      = [⟨403, .error "You are not authorized to update this event"⟩, ⟨204, .null⟩] ∧
    foreignDelete.calls = [.eventsGet 1, .eventsDelete 1] ∧
    foreignDelete.calls.any Call.isEventsDelete = true ∧
    (memModels.eventsGet foreignDelete.store 1).1 = none ∧
    foreignDelete.store.events = [] := by
  decide

/-- C6, on the code: user B, who does not own the event of user A, removes an
attendee. `deleteAttendeeFromEvent` writes 403 first, so the status is 403, but
it does not return: it calls `Attendees.Delete` and the pair is gone. -/
theorem deleteAttendeeFromEvent_foreign_caller_deletes :
    (memModels.eventsGet sampleStore 1).1 = some eventE ∧
    eventE.OwnerId ≠ userB.Id ∧
    (memModels.attendeesGetByEventAndAttendee sampleStore 1 2).1 = some ⟨1, 2⟩ ∧
    foreignRemoval.status = some 403 ∧
    foreignRemoval.writes
      = [⟨403, .error "You are not authorized to delete an attendee from event"⟩,
         ⟨204, .null⟩] ∧
    foreignRemoval.calls = [.eventsGet 1, .attendeesDelete 2 1] ∧
    foreignRemoval.calls.any Call.isAttendeesDelete = true ∧
    (memModels.attendeesGetByEventAndAttendee foreignRemoval.store 1 2).1 = none ∧
    foreignRemoval.store.attendees = [] := by
  decide

/-- C8, on the code: `registerUser` does not return after a failure. When
`bcrypt` refuses the password the handler writes 500, then still calls
`Users.Insert`, with an empty password hash, and writes the 201 response with
the user record; when `Users.Insert` fails the handler writes 500 and then the
201 response with the user record. -/
theorem registerUser_failure_not_terminal :
    (sampleLib.GenerateFromPassword longPassword).2 ≠ none ∧
    registerUnhashable.status = some 500 ∧
    registerUnhashable.calls = [.usersInsert ⟨0, "c@example.com", "", "Cyd"⟩] ∧
    registerUnhashable.calls.any Call.isUsersInsert = true ∧
    registerUnhashable.writes
      = [⟨500, .error "Something went wrong"⟩,
         ⟨201, .user ⟨3, "c@example.com", "", "Cyd"⟩⟩] ∧
    registerUnhashable.writes.length = 2 ∧
    registerUnhashable.writes.any Response.isCreatedUser = true ∧
    registerUnhashable.store.users = [userA, userB, ⟨3, "c@example.com", "", "Cyd"⟩] ∧
    (memModels.usersInsert sampleStore
        ⟨0, "a@example.com", "hash-secret-password", "Ann again"⟩).2.2 ≠ none ∧
    registerDuplicate.status = some 500 ∧
    registerDuplicate.writes
      = [⟨500, .error "Could not create user"⟩,
         ⟨201, .user ⟨0, "a@example.com", "hash-secret-password", "Ann again"⟩⟩] ∧
    registerDuplicate.writes.length = 2 ∧
    registerDuplicate.writes.any Response.isCreatedUser = true := by
  decide

/-- C10, on the code: `getEvent` tests `event == nil` before `err != nil`. When
`Events.Get` fails and returns `nil` with the error, the handler answers 404
"event not Found", not 500 "Failed to retrieve event". -/
theorem getEvent_storage_failure_is_404 :
    downModels.eventsGet () 1 = (none, some "sql: database is closed") ∧
    getWhileDown.status = some 404 ∧
    getWhileDown.writes = [⟨404, .error "event not Found"⟩] ∧
    getWhileDown.writes ≠ [⟨500, .error "Failed to retrieve event"⟩] := by
  decide

/-- The validator does not know the validation ` min` that the tag of field
`Name` of `database.Event` names. -/
theorem undefinedValidation_event :
    undefinedValidation Event.bindingTags = some (" min", "Name") := by
  decide

/-- The tags of `loginRequest` and `registerRequest` name known validations only. -/
theorem undefinedValidation_auth :
    undefinedValidation loginRequest.bindingTags = none ∧
    undefinedValidation registerRequest.bindingTags = none := by
  decide

/-- Binding a body that decodes to a `database.Event` panics in the validator. -/
theorem ShouldBindJSON_event_decoded (body : Event) (validate : Event → GoError) :
    ShouldBindJSON Event.bindingTags (.ok body) validate
      = .panic "Undefined validation function ' min' on field 'Name'" := by
  simp only [ShouldBindJSON, undefinedValidation_event]
  rfl

/-- Binding a body that does not decode returns the error of the decoder. -/
theorem ShouldBindJSON_undecoded {α : Type} (tags : BindingTags) (e : String)
    (validate : α → GoError) :
    ShouldBindJSON tags (.error e) validate = .error e := by
  rfl

/-- C1: for every existing event, every caller whose id differs from the
`OwnerId` of the event and every request body, decodable or not, `updateEvent`
writes 403 first, so the response status is 403, it does not call
`Events.Update`, and the store, hence the stored event, is as it was. -/
theorem updateEvent_foreign_caller_is_403 {σ : Type} (m : Models σ) (s : σ) (id : Int)
    (c : Context) (decoded : Except String Event) (validate : Event → GoError)
    (event : Event) (user : User)
    (hget : m.eventsGet s id = (some event, none))
    (hctx : getUserFromContext c = some user)
    (hne : event.OwnerId ≠ user.Id) :
    (updateEvent m s (some id) c decoded validate).status = some 403 ∧
    (updateEvent m s (some id) c decoded validate).writes.head?
      = some ⟨403, .error "You are not authorized to update this event"⟩ ∧
    (updateEvent m s (some id) c decoded validate).calls = [.eventsGet id] ∧
    (updateEvent m s (some id) c decoded validate).calls.any Call.isEventsUpdate = false ∧
    (updateEvent m s (some id) c decoded validate).store = s ∧
    m.eventsGet (updateEvent m s (some id) c decoded validate).store id
      = (some event, none) := by
  cases decoded with
  | error e =>
    have h : updateEvent m s (some id) c (.error e) validate
        = ⟨s, [.eventsGet id],
            [⟨403, .error "You are not authorized to update this event"⟩, ⟨400, .error e⟩],
            false⟩ := by
      simp only [updateEvent, hget, hctx, ShouldBindJSON_undecoded, if_pos hne]
      rfl
    rw [h]
    exact ⟨rfl, rfl, rfl, rfl, rfl, hget⟩
  | ok body =>
    have h : updateEvent m s (some id) c (.ok body) validate
        = ⟨s, [.eventsGet id],
            [⟨403, .error "You are not authorized to update this event"⟩], true⟩ := by
      simp only [updateEvent, hget, hctx, ShouldBindJSON_event_decoded, if_pos hne]
    rw [h]
    exact ⟨rfl, rfl, rfl, rfl, rfl, hget⟩

/-- Witness of C1: user B sends a valid replacement, and then a body that is not
JSON, for the event of user A; both are answered 403 and the event stays. -/
theorem updateEvent_foreign_caller_is_403_witness :
    foreignUpdate.status = some 403 ∧
    foreignUpdate.calls.any Call.isEventsUpdate = false ∧
    foreignUpdate.store = sampleStore ∧
    foreignGarbage.status = some 403 ∧
    foreignGarbage.store = sampleStore :=
  ⟨(updateEvent_foreign_caller_is_403 memModels sampleStore 1 (ctxOf userB)
      (.ok replacementBody) acceptAll eventE userB (by decide) (by decide) (by decide)).1,
   (updateEvent_foreign_caller_is_403 memModels sampleStore 1 (ctxOf userB)
      (.ok replacementBody) acceptAll eventE userB (by decide) (by decide)
      (by decide)).2.2.2.1,
   (updateEvent_foreign_caller_is_403 memModels sampleStore 1 (ctxOf userB)
      (.ok replacementBody) acceptAll eventE userB (by decide) (by decide)
      (by decide)).2.2.2.2.1,
   (updateEvent_foreign_caller_is_403 memModels sampleStore 1 (ctxOf userB)
      (.error "invalid character 'x' looking for beginning of value") acceptAll eventE userB
      (by decide) (by decide) (by decide)).1,
   (updateEvent_foreign_caller_is_403 memModels sampleStore 1 (ctxOf userB)
      (.error "invalid character 'x' looking for beginning of value") acceptAll eventE userB
      (by decide) (by decide) (by decide)).2.2.2.2.1⟩

/-- C3, on the code: user A, the owner, sends a valid replacement for the own
event. Binding it panics in the validator, because of the blanks in the
`binding` tags of `database.Event`: nothing is written, `Events.Update` is not
called and the event stays as it was, so no update by the owner succeeds. For
every request whatever, `updateEvent` neither calls `Events.Update` nor writes
a 200 response. -/
theorem updateEvent_owner_valid_body_panics {σ : Type} (m : Models σ) (s : σ)
    (idParam : Option Int) (c : Context) (decoded : Except String Event)
    (validate : Event → GoError) :
    (memModels.eventsGet sampleStore 1).1 = some eventE ∧
    eventE.OwnerId = userA.Id ∧
    ShouldBindJSON Event.bindingTags (.ok replacementBody) acceptAll
      = .panic "Undefined validation function ' min' on field 'Name'" ∧
    ownerUpdate.panicked = true ∧
    ownerUpdate.writes = [] ∧
    ownerUpdate.status = none ∧
    ownerUpdate.calls = [.eventsGet 1] ∧
    ownerUpdate.store = sampleStore ∧
    (updateEvent m s idParam c decoded validate).calls.any Call.isEventsUpdate = false ∧
    (∀ r ∈ (updateEvent m s idParam c decoded validate).writes, r.status ≠ 200) := by
  refine ⟨by decide, by decide, by decide, by decide, by decide, by decide, by decide,
    by decide, ?_, ?_⟩
  · cases decoded with
    | error e =>
      simp only [updateEvent, ShouldBindJSON_undecoded]
      repeat' split
      all_goals rfl
    | ok body =>
      simp only [updateEvent, ShouldBindJSON_event_decoded]
      repeat' split
      all_goals rfl
  · cases decoded with
    | error e =>
      simp only [updateEvent, ShouldBindJSON_undecoded]
      repeat' split
      all_goals simp
    | ok body =>
      simp only [updateEvent, ShouldBindJSON_event_decoded]
      repeat' split
      all_goals simp

/-- C4, on the code: for every request whose body decodes, `createEvent` panics
in the validator while binding it, because of the blanks in the `binding` tags
of `database.Event`: it does not call `Events.Insert`, writes no response, and
leaves the store as it was. So it is for user B creating an event with a valid
body: no event owned by B is inserted or returned with 201. -/
theorem createEvent_valid_body_panics {σ : Type} (m : Models σ) (s : σ) (c : Context)
    (body : Event) (validate : Event → GoError) :
    (createEvent m s c (.ok body) validate).panicked = true ∧
    (createEvent m s c (.ok body) validate).calls = [] ∧
    (createEvent m s c (.ok body) validate).calls.any Call.isEventsInsert = false ∧
    (createEvent m s c (.ok body) validate).writes = [] ∧
    (createEvent m s c (.ok body) validate).status = none ∧
    (createEvent m s c (.ok body) validate).store = s ∧
    getUserFromContext (ctxOf userB) = some userB ∧
    validCreate.panicked = true ∧
    validCreate.calls = [] ∧
    validCreate.writes = [] ∧
    validCreate.store = sampleStore := by
  have h : createEvent m s c (.ok body) validate = ⟨s, [], [], true⟩ := by
    simp only [createEvent, ShouldBindJSON_event_decoded]
  rw [h]
  exact ⟨rfl, rfl, rfl, rfl, rfl, rfl, by decide, by decide, by decide, by decide, by decide⟩

end EventManager
